import Mathlib

/-
Verification of the session-activity reconciliation engine of the
jules-discordbot repository (file `part_005`: the Discord bot gluing the
Jules coding-agent API to chat channels).

The embedding below translates the JavaScript source into Lean:
  * JS objects with optional fields become structures with `Option` fields;
    JS truthiness on a string field (`s || d`, `if (s)`) is modelled by
    treating `none` and `some ""` as falsy.
  * `formatActivity` (source lines 151-222) becomes the pure functions
    `classify`, `primaryContent`, `artifactStep` and `formatActivity`.
  * The polling loop of `monitorSession` (lines 235-333) becomes the step
    functions `processActivities` / `monitorTick` and the driver
    `runMonitor`; the effects of one loop iteration (channel sends) are
    reified as a list of `Emission`s, and the nondeterministic inputs of an
    iteration (the clock, the poll result, the random phrase draw) are the
    fields of a `Tick`.  All `Date.now()` calls of one iteration are
    abstracted to the single timestamp `Tick.now`.
  * The initial back-fill pagination (lines 239-248) becomes `backfillLoop`
    (fueled, since the page feed is external).
  * The `messageCreate` handler's routing (lines 589-646) becomes
    `handleActiveMessage` (active-session branch) and `routeNoSession` /
    `handleNoSession` (no-session branch); the LLM resolver's output is the
    `Decision` input.
String literals reproduce the characters stored in the source file.
-/

namespace JulesBot

/-- JS `s || d` for an optional string field: `undefined` and `""` are falsy. -/
def strOr (s : Option String) (d : String) : String :=
  match s with
  | some t => if t = "" then d else t
  | none => d

/-- JS `String.prototype.includes`: `pat` occurs as a contiguous substring of `s`. -/
def jsIncludes (s pat : String) : Bool :=
  decide (List.IsInfix pat.data s.data)

/-- One step of a generated plan (`planGenerated.plan.steps[i]`). -/
structure PlanStep where
  index : Option Nat
  title : String
deriving DecidableEq

/-- The `plan` object inside a `planGenerated` payload. -/
structure Plan where
  steps : Option (List PlanStep)
deriving DecidableEq

/-- The `planGenerated` payload of an activity. -/
structure PlanGenerated where
  plan : Option Plan
deriving DecidableEq

/-- The `progressUpdated` payload of an activity. -/
structure ProgressUpdated where
  title : Option String
  description : Option String
deriving DecidableEq

/-- A pull-request reference inside an `outputs` entry. -/
structure PullRequest where
  url : String
  title : String
deriving DecidableEq

/-- One entry of the `outputs` payload. -/
structure JOutput where
  pullRequest : Option PullRequest
deriving DecidableEq

/-- The `bashOutput` artifact kind. -/
structure BashOutput where
  command : Option String
  output : Option String
deriving DecidableEq

/-- The `media` artifact kind (base64 screenshot). -/
structure Media where
  data : Option String
  mimeType : Option String
deriving DecidableEq

/-- One attached artifact. -/
structure Artifact where
  bashOutput : Option BashOutput
  media : Option Media
deriving DecidableEq

/-- One raw activity record of the session feed; `sessionCompleted` records
presence of that (payload-free) field. -/
structure Activity where
  id : String
  originator : String
  planGenerated : Option PlanGenerated
  progressUpdated : Option ProgressUpdated
  outputs : Option (List JOutput)
  sessionCompleted : Bool
  artifacts : Option (List Artifact)
deriving DecidableEq

/-- Classification tag computed by `formatActivity` (its `type` variable). -/
inductive ActivityType where
  | planGenerated
  | progressUpdated
  | outputs
  | sessionCompleted
  | unknown
deriving DecidableEq

/-- The value `formatActivity` returns when it returns non-null. -/
structure Notification where
  content : String
  files : List String
  type : ActivityType
deriving DecidableEq

/-- Rendering of one plan step: `s.index ? s.index + '. ' : ''` followed by
the title (a `0` index is falsy in JS, hence unnumbered). -/
def stepLine (s : PlanStep) : String :=
  (match s.index with
   | some i => if i = 0 then "" else toString i ++ ". "
   | none => "") ++ s.title

/-- Classification if-chain of `formatActivity` (source lines 159-192):
plan-generated (requires a truthy inner `plan`), then progress-updated, then
outputs, then session-completed; first match wins. -/
def classify (a : Activity) : ActivityType :=
  if (a.planGenerated.bind PlanGenerated.plan).isSome then .planGenerated
  else if a.progressUpdated.isSome then .progressUpdated
  else if a.outputs.isSome then .outputs
  else if a.sessionCompleted then .sessionCompleted
  else .unknown

/-- Primary text computed by the classification if-chain of `formatActivity`
(the `content` variable before artifact processing). -/
def primaryContent (a : Activity) : String :=
  match a.planGenerated.bind PlanGenerated.plan with
  | some plan =>
    match plan.steps with
    | some steps =>
      "I have created a plan:\n" ++ String.intercalate "\n" (steps.map stepLine)
    | none => ""
  | none =>
    match a.progressUpdated with
    | some pu =>
      let base := "Update: " ++ strOr pu.title "Progress update"
      match pu.description with
      | some d => if d ≠ "" ∧ pu.title ≠ some d then base ++ "\n" ++ d else base
      | none => base
    | none =>
      match a.outputs with
      | some outs =>
        match outs.find? (fun o => o.pullRequest.isSome) with
        | some o =>
          match o.pullRequest with
          | some pr => "I have created a Pull Request: " ++ pr.url ++ "\n" ++ pr.title
          | none => ""
        | none => ""
      | none => if a.sessionCompleted then "Task completed." else ""

/-- Artifact processing of `formatActivity` (source lines 195-217): append a
fenced bash transcript when command or output is non-empty, then decode a
media artifact into an attached file plus a caption.  The accumulator is the
(content, files) pair being mutated. -/
def artifactStep (acc : String × List String) (art : Artifact) : String × List String :=
  let content := acc.1
  let files := acc.2
  let content :=
    match art.bashOutput with
    | some b =>
      let cmd := strOr b.command ""
      let out := strOr b.output ""
      if cmd ≠ "" ∨ out ≠ "" then
        content ++ "\n```bash\n" ++ cmd ++ "\n" ++ out ++ "\n```"
      else content
    | none => content
  match art.media with
  | some m =>
    match m.data with
    | some d =>
      if d ≠ "" then
        (content ++ "\n(Look! I took a screenshot!)",
         files ++ ["screenshot." ++ (if m.mimeType = some "image/png" then "png" else "jpg")])
      else (content, files)
    | none => (content, files)
  | none => (content, files)

/-- The formatter `formatActivity` (source lines 151-222) on a non-null
activity: classify, render the primary text, fold the artifacts, and return
null when no text and no files resulted. -/
def formatActivity (a : Activity) : Option Notification :=
  let start := primaryContent a
  let acc := (a.artifacts.getD []).foldl artifactStep (start, [])
  if acc.1 = "" ∧ acc.2 = [] then none
  else some ⟨acc.1, acc.2, classify a⟩

/-- The formatter including the JS null-input guard (`if (!activity) return null`). -/
def formatActivityOpt (a : Option Activity) : Option Notification :=
  match a with
  | none => none
  | some act => formatActivity act

/-- Fixed idle filler phrase set `MUTTER_PHRASES` (source lines 224-233). -/
def MUTTER_PHRASES : List String :=
  ["ãµã‚€ãµã‚€...",
   "ã¡ã‚‡ã£ã¨å¾…ã£ã¦ã­ã€è€ƒãˆã¦ã‚‹...",
   "ãˆã£ã¨ã€ãã‚Œã¯...",
   "é›£ã—ãã†ã ãªã...",
   "ä¸€ç”Ÿæ‡¸å‘½ã‚„ã£ã¦ã‚‹ã‚ˆï¼",
   "ã‚‚ã†ã¡ã‚‡ã£ã¨ã§åˆ†ã‹ã‚Šãã†...",
   "ä»Šã‚³ãƒ¼ãƒ‰ã‚’èª­ã‚“ã§ã‚‹ã‚ˆ...",
   "ã©ã†ã™ã‚Œã°ã„ã„ã‹ãªã..."]

/-- Random phrase draw `MUTTER_PHRASES[Math.floor(Math.random() * length)]`,
with the random sample abstracted as a natural number. -/
def pickPhrase (n : Nat) : String :=
  MUTTER_PHRASES.getD (n % MUTTER_PHRASES.length) ""

/-- Mutable local state of one `monitorSession` run across loop iterations. -/
structure MonitorState where
  seenIds : Finset String
  isWaitingForResponse : Bool
  lastMutterTime : Int
deriving DecidableEq

/-- One observable channel effect of the monitor.  A `notify` is a
`channel.send` of a formatted activity payload, tagged (for specification)
with the id of the activity it renders, plus the sent text, the attached
file names, and whether an approve-plan button was attached.  A `mutter` is
an idle filler `channel.send`. -/
inductive Emission where
  | mutter (phrase : String)
  | notify (activityId : String) (content : String) (files : List String) (approveButton : Bool)
deriving DecidableEq

/-- Result of one polling-loop iteration body: either the loop continues
with an updated state, or `monitorSession` returned (session completed). -/
inductive TickResult where
  | cont (st : MonitorState) (ems : List Emission)
  | terminated (ems : List Emission)
deriving DecidableEq

/-- Sends produced for one formatted activity (source lines 304-329):
non-empty text goes through the persona translator `tr`; a send happens when
the translated text or the file list is non-empty, empty text defaulting to
"..."; a plan gets an approve button attached. -/
def notifySends (tr : String → String) (a : Activity) (r : Notification) :
    List Emission :=
  let textToSend := if r.content ≠ "" then tr r.content else r.content
  if textToSend ≠ "" ∨ r.files ≠ [] then
    [.notify a.id (if textToSend = "" then "..." else textToSend) r.files
      (decide (r.type = .planGenerated))]
  else []

/-- Waiting-flag update per classification tag (source lines 294-299);
the `sessionCompleted` arm of the source chain returns instead (handled by
the caller), and an unmatched tag leaves the flag unchanged. -/
def updateWaiting (w : Bool) (t : ActivityType) : Bool :=
  match t with
  | .planGenerated => false
  | .outputs => false
  | .progressUpdated => true
  | _ => w

/-- Prepending the sends already performed for one activity to the result
of processing the rest of the page. -/
def seqResult (ems : List Emission) : TickResult → TickResult
  | .cont st e2 => .cont st (ems ++ e2)
  | .terminated e2 => .terminated (ems ++ e2)

/-- The `for (const activity of newActivities)` loop (source lines 284-331):
record the id as seen, skip user-originated activities, format, update the
waiting flag, send; on a `sessionCompleted` classification return
immediately — before any send for that activity. -/
def processActivities (tr : String → String) (st : MonitorState) :
    List Activity → TickResult
  | [] => .cont st []
  | a :: rest =>
    let st1 : MonitorState := { st with seenIds := insert a.id st.seenIds }
    if a.originator = "user" then processActivities tr st1 rest
    else
      match formatActivity a with
      | none => processActivities tr st1 rest
      | some r =>
        if r.type = .sessionCompleted then .terminated []
        else
          let st2 : MonitorState :=
            { st1 with isWaitingForResponse := updateWaiting st1.isWaitingForResponse r.type }
          seqResult (notifySends tr a r) (processActivities tr st2 rest)

/-- External inputs of one polling iteration: the clock reading, the result
of `listActivities` (`none` models both a failed fetch and a response
without an `activities` field), and the random draw for the filler phrase. -/
structure Tick where
  now : Int
  poll : Option (List Activity)
  phrase : Nat
deriving DecidableEq

/-- Idle-filler check shared by the two mutter branches (source lines
262-266 and 277-281): emit one phrase only when the waiting flag is set and
more than 30000 ms passed since the last emitted/attempted message. -/
def mutterStep (st : MonitorState) (now : Int) (phrase : Nat) : TickResult :=
  if st.isWaitingForResponse ∧ now - st.lastMutterTime > 30000 then
    .cont { st with lastMutterTime := now } [.mutter (pickPhrase phrase)]
  else
    .cont st []

/-- Body of one iteration of the polling `while` loop (source lines
257-331): a failed or empty fetch runs only the idle-filler check; otherwise
the page is filtered against the seen-set, a non-empty remainder resets the
idle timer and is processed in order. -/
def monitorTick (tr : String → String) (st : MonitorState) (now : Int)
    (poll : Option (List Activity)) (phrase : Nat) : TickResult :=
  match poll with
  | none => mutterStep st now phrase
  | some acts =>
    let newActivities := acts.filter (fun a => decide (a.id ∉ st.seenIds))
    if newActivities = [] then mutterStep st now phrase
    else processActivities tr { st with lastMutterTime := now } newActivities

/-- Wall-clock ceiling `maxTime` of one monitor run (10 minutes, source line 250). -/
def maxTime : Int := 600000

/-- The polling `while` loop run over a finite trace of iteration inputs:
the guard `Date.now() - startTime < maxTime` is checked before each
iteration.  Returns the emitted sends and the final state — `none` when the
monitor returned (session completed or ceiling exceeded), `some` when the
trace is exhausted with the monitor still live. -/
def runMonitor (tr : String → String) (startTime : Int) (st : MonitorState) :
    List Tick → List Emission × Option MonitorState
  | [] => ([], some st)
  | t :: ts =>
    if t.now - startTime < maxTime then
      match monitorTick tr st t.now t.poll t.phrase with
      | .cont st' ems =>
        let rest := runMonitor tr startTime st' ts
        (ems ++ rest.1, rest.2)
      | .terminated ems => (ems, none)
    else ([], none)

/-- One page of the activities feed as returned by `listActivities`. -/
structure Page where
  activities : Option (List Activity)
  nextPageToken : Option String
deriving DecidableEq

/-- Recording one page's activity ids
(`data.activities.forEach(a => seenIds.add(a.id))`, source line 244). -/
def addIds (seen : Finset String) (acts : List Activity) : Finset String :=
  acts.foldl (fun s a => insert a.id s) seen

/-- Initial back-fill do/while pagination of `monitorSession` (source lines
239-248) over an abstract page feed keyed by page token.  A failed fetch
yields `none`, adds nothing, and ends the loop (the token read on a null
response is null); the loop continues while the next token is truthy
(non-null and non-empty).  `fuel` bounds the external feed's page chain. -/
def backfillLoop (feed : Option String → Option Page) :
    Nat → Option String → Finset String → Finset String
  | 0, _, seen => seen
  | fuel + 1, tok, seen =>
    match feed tok with
    | none => seen
    | some p =>
      let seen' := match p.activities with
        | some acts => addIds seen acts
        | none => seen
      match p.nextPageToken with
      | some t => if t ≠ "" then backfillLoop feed fuel (some t) seen' else seen'
      | none => seen'

/-- Entry of `monitorSession` (source lines 235-254): seed the seen-set —
back-filling the full feed when no seen-set was supplied — then run the
polling loop with the waiting flag initially set.  The initial
`lastMutterTime` and the loop's `startTime` are adjacent `Date.now()`
readings, abstracted to the single value `startTime`. -/
def monitorSession (tr : String → String) (feed : Option String → Option Page)
    (fuel : Nat) (initialSeenIds : Option (Finset String)) (startTime : Int)
    (ticks : List Tick) : List Emission × Option MonitorState :=
  let seen0 := match initialSeenIds with
    | some s => s
    | none => backfillLoop feed fuel none ∅
  runMonitor tr startTime ⟨seen0, true, startTime⟩ ticks

/-- Error message built by a failed `sendMessageToSession` (source line 130). -/
def sendMessageErr (errText : String) : String := "SendMessage Failed: " ++ errText

/-- Reply sent when the active session has expired (source line 611). -/
def evictNotice : String :=
  "å‰ã®ã‚»ãƒƒã‚·ãƒ§ãƒ³ãŒåˆ‡ã‚Œã¡ã‚ƒã£ãŸã¿ãŸã„... ã‚‚ã†ä¸€å›žæœ€åˆã‹ã‚‰ãŠé¡˜ã„ã§ãã‚‹ã‹ãªï¼Ÿ"

/-- Prefix of the outer-catch error reply (source line 650). -/
def errReplyPrefix : String :=
  "ã‚¨ãƒ©ãƒ¼ãŒå‡ºã¡ã‚ƒã£ãŸ...: "

/-- Reply sent when the account has no sources (source line 622). -/
def noSourcesMsg : String :=
  "Julesã®ã‚¢ã‚«ã‚¦ãƒ³ãƒˆã«ã‚½ãƒ¼ã‚¹ãŒè¦‹ã¤ã‹ã‚‰ãªã„ã‚ˆ... å…ˆã«ã‚½ãƒ¼ã‚¹ã‚’ç¹‹ã„ã§ã»ã—ã„ãªã€‚"

/-- Fallback clarification used when the resolver supplied no reply (source line 643). -/
def defaultSelectPrompt : String :=
  "ã©ã®ãƒªãƒã‚¸ãƒˆãƒªã«ã™ã‚‹ï¼Ÿ"

/-- Outcome of `sendMessageToSession` as seen by the handler. -/
inductive SendOutcome where
  | ok
  | fail (errText : String)
deriving DecidableEq

/-- User-visible outcome of the active-session branch. -/
inductive ActiveResult where
  | monitorStarted (seeded : Finset String)
  | sessionEvicted (reply : String)
  | errorReported (reply : String)
deriving DecidableEq

/-- Active-session branch of the `messageCreate` handler (source lines
591-615) for one conversation, taking the outcome of `sendMessageToSession`:
on success the monitor is (re)started seeded with the freshly paginated
seen-set; a thrown error whose message contains "404" deletes the
conversation's session mapping and notifies the user; any other error is
rethrown to the outer catch, which reports it without touching the mapping.
The first component is the conversation's session mapping afterwards. -/
def handleActiveMessage (sessionId : String) (seen : Finset String)
    (send : SendOutcome) : Option String × ActiveResult :=
  match send with
  | .ok => (some sessionId, .monitorStarted seen)
  | .fail errText =>
    if jsIncludes (sendMessageErr errText) "404" then
      (none, .sessionEvicted evictNotice)
    else
      (some sessionId, .errorReported (errReplyPrefix ++ sendMessageErr errText))

/-- A source repository (`sources[i]`), keyed by its `name`. -/
structure Source where
  name : String
deriving DecidableEq

/-- The JSON decision returned by `identifySourceWithGemini`. -/
structure Decision where
  matchIndex : Option Int
  reply : Option String
deriving DecidableEq

/-- Outcome of the no-session branch. -/
inductive RouteOutcome where
  | noSources (reply : String)
  | startSession (src : Source)
  | reprompt (reply : String)
deriving DecidableEq

/-- No-session branch of the `messageCreate` handler (source lines 617-645),
taking the resolver's decision: an empty source list replies with the fixed
no-sources message; a non-null `matchIndex` inside `[0, length)` is accepted
and a session is created against `sources[matchIndex]`; anything else
re-prompts with the resolver's reply or the fixed fallback. -/
def routeNoSession (sources : List Source) (decision : Decision) : RouteOutcome :=
  if sources.isEmpty then .noSources noSourcesMsg
  else
    match decision.matchIndex with
    | some i =>
      if 0 ≤ i ∧ i < sources.length then .startSession (sources.getD i.toNat ⟨""⟩)
      else .reprompt (strOr decision.reply defaultSelectPrompt)
    | none => .reprompt (strOr decision.reply defaultSelectPrompt)

/-- Conversation session mapping after the no-session branch (lines
630-645): only an accepted match stores the id of the created session. -/
def noSessionStateAfter (sources : List Source) (decision : Decision)
    (newSessionId : String) : Option String :=
  match routeNoSession sources decision with
  | .startSession _ => some newSessionId
  | _ => none

/-- Value of one decimal digit character. -/
def claimDigit (c : Char) : Option Nat :=
  if c = '0' then some 0 else if c = '1' then some 1 else if c = '2' then some 2
  else if c = '3' then some 3 else if c = '4' then some 4
  else if c = '5' then some 5 else if c = '6' then some 6
  else if c = '7' then some 7 else if c = '8' then some 8
  else if c = '9' then some 9 else none

/-- Decimal reading of a message; `none` on empty or non-numeric input. -/
def claimParseNat (msg : String) : Option Nat :=
  if msg.data.isEmpty then none
  else msg.data.foldl
    (fun acc c => acc.bind (fun n => (claimDigit c).map (fun d => 10 * n + d)))
    (some 0)

/-- The pending-selection behavior the claim ascribes to the router,
rendered from the spec's words for comparison with `routeNoSession`: parse
the inbound message itself as a 1-based index into the stored candidate
list; a valid index proceeds as a confident match on that candidate,
out-of-range or non-numeric input re-prompts. -/
def routePendingSelectionClaim (candidates : List Source) (msg : String) :
    RouteOutcome :=
  match claimParseNat msg with
  | some n =>
    if 1 ≤ n ∧ n ≤ candidates.length then .startSession (candidates.getD (n - 1) ⟨""⟩)
    else .reprompt defaultSelectPrompt
  | none => .reprompt defaultSelectPrompt

/-- Emissions carried by a tick result, whichever way the tick ended. -/
def emsOf : TickResult → List Emission
  | .cont _ e => e
  | .terminated e => e

/-- Test whether an emission is the notification rendered from activity `x`. -/
def isNotifyOf (x : String) : Emission → Bool
  | .notify i _ _ _ => i == x
  | .mutter _ => false

/-- Number of notifications for activity id `x` in an emission list. -/
def notifCount (x : String) (l : List Emission) : Nat :=
  l.countP (isNotifyOf x)

/-- An activity carrying both a plan payload and an outputs payload. -/
def cPlanOutputs : Activity :=
  { id := "po-1", originator := "agent",
    planGenerated := some ⟨some ⟨some [⟨some 1, "draft"⟩]⟩⟩,
    progressUpdated := none,
    outputs := some [⟨some ⟨"https://example.test/pr/1", "a pr"⟩⟩],
    sessionCompleted := false, artifacts := none }

/-- An activity with no recognized payload and no artifacts. -/
def blankActivity : Activity :=
  { id := "b1", originator := "agent", planGenerated := none,
    progressUpdated := none, outputs := none, sessionCompleted := false,
    artifacts := none }

/-- A session-completed activity as delivered by the feed. -/
def cCompleted : Activity :=
  { id := "done-1", originator := "agent", planGenerated := none,
    progressUpdated := none, outputs := none, sessionCompleted := true,
    artifacts := none }

/-- Claim C3: an activity carrying both a plan-generated payload (with its
plan) and an outputs payload classifies as `planGenerated`, never as
`outputs`; the classification chain tries plan-generated, then
progress-update, then outputs, then session-completed, first match winning;
and any notification `formatActivity` returns carries that classification. -/
theorem C3_precedence_plan_over_outputs (a : Activity) :
    ((a.planGenerated.bind PlanGenerated.plan).isSome = true → a.outputs.isSome = true →
      classify a = .planGenerated ∧ classify a ≠ .outputs) ∧
    ((a.planGenerated.bind PlanGenerated.plan).isSome = true →
      classify a = .planGenerated) ∧
    ((a.planGenerated.bind PlanGenerated.plan).isSome = false →
      a.progressUpdated.isSome = true → classify a = .progressUpdated) ∧
    ((a.planGenerated.bind PlanGenerated.plan).isSome = false →
      a.progressUpdated.isSome = false → a.outputs.isSome = true →
      classify a = .outputs) ∧
    ((a.planGenerated.bind PlanGenerated.plan).isSome = false →
      a.progressUpdated.isSome = false → a.outputs.isSome = false →
      a.sessionCompleted = true → classify a = .sessionCompleted) ∧
    (∀ r, formatActivity a = some r → r.type = classify a) := by
  refine ⟨?_, ?_, ?_, ?_, ?_, ?_⟩
  · intro h _
    simp [classify, h]
  · intro h
    simp [classify, h]
  · intro h1 h2
    simp [classify, h1, h2]
  · intro h1 h2 h3
    simp [classify, h1, h2, h3]
  · intro h1 h2 h3 h4
    simp [classify, h1, h2, h3, h4]
  · intro r hr
    unfold formatActivity at hr
    dsimp only [] at hr
    split at hr
    · exact absurd hr (by simp)
    · simp only [Option.some.injEq] at hr
      rw [← hr]

/-- Witness for C3 at the concrete activity carrying a plan and an output. -/
theorem C3_precedence_witness :
    classify cPlanOutputs = .planGenerated ∧ classify cPlanOutputs ≠ .outputs :=
  (C3_precedence_plan_over_outputs cPlanOutputs).1 (by decide) (by decide)

/-- Claim C4: the formatter is total (a Lean function by construction, with
a null input producing null), and an activity whose classification chain
yields no primary text and which carries no artifacts formats to null. -/
theorem C4_formatter_null_case :
    formatActivityOpt none = none ∧
    ∀ a : Activity, primaryContent a = "" → a.artifacts.getD [] = [] →
      formatActivity a = none := by
  refine ⟨rfl, ?_⟩
  intro a h1 h2
  simp [formatActivity, h1, h2]

/-- Witness for C4 at the blank activity. -/
theorem C4_formatter_null_witness :
    formatActivity blankActivity = none :=
  C4_formatter_null_case.2 blankActivity (by decide) (by decide)

/-- Emissions of a combined result are the prepended sends then the rest's. -/
theorem emsOf_seqResult (ems : List Emission) (r : TickResult) :
    emsOf (seqResult ems r) = ems ++ emsOf r := by
  cases r <;> rfl

/-- Claim C1, counterexample: on a session-completed activity the formatter
does produce the completion notification ("Task completed."), yet the
polling iteration that meets this activity terminates the monitor with an
empty emission list — the `return` on the `sessionCompleted` tag precedes
the `channel.send`, so the completion notification is never sent. -/
theorem C1_completion_counterexample :
    formatActivity cCompleted = some ⟨"Task completed.", [], .sessionCompleted⟩ ∧
    monitorTick id ⟨∅, true, 0⟩ 4000 (some [cCompleted]) 0 = .terminated [] := by
  decide

/-- Claim C1 as amended: when a new agent-originated activity formats with
the `sessionCompleted` tag, the monitor terminates immediately and emits
nothing for that activity (the completion notification is suppressed) nor
for any activity after it in the page. -/
theorem C1_completion_terminates_silently (tr : String → String)
    (st : MonitorState) (a : Activity) (rest : List Activity)
    (r : Notification) (h1 : a.originator ≠ "user")
    (h2 : formatActivity a = some r) (h3 : r.type = .sessionCompleted) :
    processActivities tr st (a :: rest) = .terminated [] := by
  simp [processActivities, h1, h2, h3]

/-- Witness for the amended C1 at the concrete completed activity. -/
theorem C1_completion_witness :
    processActivities id ⟨∅, true, 0⟩ [cCompleted] = .terminated [] :=
  C1_completion_terminates_silently id ⟨∅, true, 0⟩ cCompleted []
    ⟨"Task completed.", [], .sessionCompleted⟩ (by decide) (by decide) rfl

/-- Claim C10: a new agent-originated activity that formats to null is
skipped entirely — nothing is emitted and the waiting flag is untouched —
but its identifier has been added to the seen-set, so processing the page
continues exactly as if only the seen-set had grown by that id. -/
theorem C10_null_format_still_marked_seen (tr : String → String)
    (st : MonitorState) (a : Activity) (rest : List Activity)
    (h1 : a.originator ≠ "user") (h2 : formatActivity a = none) :
    processActivities tr st (a :: rest)
      = processActivities tr { st with seenIds := insert a.id st.seenIds } rest := by
  simp [processActivities, h1, h2]

/-- Witness for C10 at the blank activity. -/
theorem C10_null_format_witness :
    processActivities id ⟨∅, true, 0⟩ [blankActivity]
      = processActivities id ⟨insert blankActivity.id ∅, true, 0⟩ [] :=
  C10_null_format_still_marked_seen id ⟨∅, true, 0⟩ blankActivity []
    (by decide) (by decide)

/-- A send list produced for one formatted activity contains no filler. -/
theorem notifySends_no_mutter (tr : String → String) (a : Activity)
    (r : Notification) (p : String) :
    Emission.mutter p ∉ notifySends tr a r := by
  unfold notifySends
  dsimp only []
  split
  · simp
  · simp

/-- Processing a page of new activities never produces a filler message. -/
theorem processActivities_no_mutter (tr : String → String) (p : String) :
    ∀ (acts : List Activity) (st : MonitorState),
      Emission.mutter p ∉ emsOf (processActivities tr st acts) := by
  intro acts
  induction acts with
  | nil => intro st; simp [processActivities, emsOf]
  | cons a rest ih =>
    intro st
    unfold processActivities
    dsimp only []
    split
    · exact ih _
    · split
      · exact ih _
      · rename_i r hfmt
        split
        · simp [emsOf]
        · rename_i hnc
          rw [emsOf_seqResult]
          simp only [List.mem_append]
          rintro (h | h)
          · exact notifySends_no_mutter tr a r p h
          · exact ih _ h

/-- The drawn filler phrase always belongs to the fixed phrase set. -/
theorem pickPhrase_mem (n : Nat) : pickPhrase n ∈ MUTTER_PHRASES := by
  have hlt : n % MUTTER_PHRASES.length < MUTTER_PHRASES.length :=
    Nat.mod_lt _ (by decide)
  unfold pickPhrase
  rw [List.getD_eq_getElem _ _ hlt]
  exact List.getElem_mem _

/-- Claim C9: a polling iteration emits a filler message only when the
waiting flag is true and the idle time since the last emitted/attempted
message exceeds the 30-second threshold, and the phrase comes from the
fixed phrase set. -/
theorem C9_mutter_only_when_waiting (tr : String → String) (st : MonitorState)
    (now : Int) (poll : Option (List Activity)) (phrase : Nat) (p : String)
    (h : Emission.mutter p ∈ emsOf (monitorTick tr st now poll phrase)) :
    st.isWaitingForResponse = true ∧ now - st.lastMutterTime > 30000 ∧
      p ∈ MUTTER_PHRASES := by
  have hmut : ∀ hm : Emission.mutter p ∈ emsOf (mutterStep st now phrase),
      st.isWaitingForResponse = true ∧ now - st.lastMutterTime > 30000 ∧
        p ∈ MUTTER_PHRASES := by
    intro hm
    unfold mutterStep at hm
    split at hm
    · rename_i hc
      simp only [emsOf, List.mem_singleton, Emission.mutter.injEq] at hm
      exact ⟨hc.1, hc.2, hm ▸ pickPhrase_mem phrase⟩
    · simp [emsOf] at hm
  unfold monitorTick at h
  match poll, h with
  | none, h => exact hmut h
  | some acts, h =>
    dsimp only [] at h
    split at h
    · exact hmut h
    · exact absurd h (processActivities_no_mutter tr p _ _)

/-- Witness for C9: a tick in the waiting state, idle past the threshold,
with a failed fetch, emits a phrase and the theorem applies to it. -/
theorem C9_mutter_witness :
    (⟨∅, true, 0⟩ : MonitorState).isWaitingForResponse = true ∧
      (40000 : Int) - (⟨∅, true, 0⟩ : MonitorState).lastMutterTime > 30000 ∧
      pickPhrase 0 ∈ MUTTER_PHRASES :=
  C9_mutter_only_when_waiting id ⟨∅, true, 0⟩ 40000 none 0 (pickPhrase 0)
    (by decide)

/-- A combined result is `terminated` only when the rest's result was. -/
theorem seqResult_terminated (ems e2 : List Emission) (r : TickResult)
    (h : seqResult ems r = .terminated e2) :
    ∃ e3, r = .terminated e3 := by
  cases r with
  | cont st e3 => exact absurd h (by simp [seqResult])
  | terminated e3 => exact ⟨e3, rfl⟩

/-- Processing a page returns `terminated` only because some agent activity
in it formats with the `sessionCompleted` tag. -/
theorem processActivities_terminated (tr : String → String) :
    ∀ (acts : List Activity) (st : MonitorState) (ems : List Emission),
      processActivities tr st acts = .terminated ems →
      ∃ a ∈ acts, a.originator ≠ "user" ∧
        ∃ r, formatActivity a = some r ∧ r.type = .sessionCompleted := by
  intro acts
  induction acts with
  | nil =>
    intro st ems h
    exact absurd h (by simp [processActivities])
  | cons a rest ih =>
    intro st ems h
    unfold processActivities at h
    dsimp only [] at h
    split at h
    · obtain ⟨a', ha', hrest⟩ := ih _ _ h
      exact ⟨a', List.mem_cons_of_mem a ha', hrest⟩
    · rename_i horig
      split at h
      · obtain ⟨a', ha', hrest⟩ := ih _ _ h
        exact ⟨a', List.mem_cons_of_mem a ha', hrest⟩
      · rename_i r hfmt
        split at h
        · rename_i hcompl
          exact ⟨a, List.mem_cons_self a rest, horig, r, hfmt, hcompl⟩
        · rename_i hnc
          obtain ⟨e3, hrec⟩ := seqResult_terminated _ _ _ h
          obtain ⟨a', ha', hrest⟩ := ih _ _ hrec
          exact ⟨a', List.mem_cons_of_mem a ha', hrest⟩

/-- Claim C5: a failed activity fetch behaves exactly like an empty page —
the iteration body is literally the same computation, which always
continues the loop — the only way an iteration terminates the monitor is a
new agent activity formatting as session-completed, and the polling loop
stops without a further iteration once the wall-clock ceiling is reached. -/
theorem C5_poll_failure_recovered (tr : String → String) (st : MonitorState)
    (now : Int) (ph : Nat) :
    (monitorTick tr st now none ph = monitorTick tr st now (some []) ph) ∧
    (∃ st' ems, monitorTick tr st now none ph = .cont st' ems) ∧
    (∀ poll ems, monitorTick tr st now poll ph = .terminated ems →
      ∃ acts, poll = some acts ∧ ∃ a ∈ acts, a.originator ≠ "user" ∧
        ∃ r, formatActivity a = some r ∧ r.type = .sessionCompleted) ∧
    (∀ (startTime : Int) (st0 : MonitorState) (ts : List Tick),
      ¬ (now - startTime < maxTime) →
      runMonitor tr startTime st0 (⟨now, none, ph⟩ :: ts) = ([], none)) := by
  have hmut : ∃ st' ems, mutterStep st now ph = .cont st' ems := by
    unfold mutterStep
    by_cases hc : st.isWaitingForResponse = true ∧ now - st.lastMutterTime > 30000
    · exact ⟨_, _, if_pos hc⟩
    · exact ⟨_, _, if_neg hc⟩
  refine ⟨rfl, hmut, ?_, ?_⟩
  · intro poll ems h
    match poll with
    | none =>
      obtain ⟨st', ems', hc⟩ := hmut
      rw [show monitorTick tr st now none ph = mutterStep st now ph from rfl,
        hc] at h
      exact absurd h (by simp)
    | some acts =>
      refine ⟨acts, rfl, ?_⟩
      unfold monitorTick at h
      dsimp only [] at h
      split at h
      · obtain ⟨st', ems', hc⟩ := hmut
        rw [hc] at h
        exact absurd h (by simp)
      · obtain ⟨a, ha, hrest⟩ := processActivities_terminated tr _ _ _ h
        exact ⟨a, List.mem_of_mem_filter ha, hrest⟩
  · intro startTime st0 ts hc
    unfold runMonitor
    simp [hc]

/-- Witness for C5: the termination characterization applied to a tick that
meets the completed activity, and the ceiling cut applied past the budget. -/
theorem C5_poll_failure_witness :
    (∃ acts, (some [cCompleted] : Option (List Activity)) = some acts ∧
      ∃ a ∈ acts, a.originator ≠ "user" ∧
        ∃ r, formatActivity a = some r ∧ r.type = .sessionCompleted) ∧
    runMonitor id 0 ⟨∅, true, 0⟩ [⟨700000, none, 0⟩] = ([], none) :=
  ⟨(C5_poll_failure_recovered id ⟨∅, true, 0⟩ 4000 0).2.2.1
      (some [cCompleted]) [] (by decide),
   (C5_poll_failure_recovered id ⟨∅, true, 0⟩ 700000 0).2.2.2 0 ⟨∅, true, 0⟩ []
      (by decide)⟩

/-- Claim C6: a `sendMessage` failure whose error message carries the 404
status evicts the conversation's session mapping and notifies the user
(returning the conversation to the no-session state), while any other
failure leaves the session mapping in place and only reports the error. -/
theorem C6_notfound_evicts_session (sessionId : String) (seen : Finset String)
    (errText : String) :
    (jsIncludes (sendMessageErr errText) "404" = true →
      handleActiveMessage sessionId seen (.fail errText)
        = (none, .sessionEvicted evictNotice)) ∧
    (jsIncludes (sendMessageErr errText) "404" = false →
      handleActiveMessage sessionId seen (.fail errText)
        = (some sessionId,
           .errorReported (errReplyPrefix ++ sendMessageErr errText))) := by
  constructor <;> intro h <;> simp [handleActiveMessage, h]

/-- Witness for C6: a 404 body evicts, a non-404 body does not. -/
theorem C6_notfound_witness :
    handleActiveMessage "sessions/abc" ∅ (.fail "404 NOT_FOUND")
      = (none, .sessionEvicted evictNotice) ∧
    handleActiveMessage "sessions/abc" ∅ (.fail "500 internal")
      = (some "sessions/abc",
         .errorReported (errReplyPrefix ++ sendMessageErr "500 internal")) :=
  ⟨(C6_notfound_evicts_session "sessions/abc" ∅ "404 NOT_FOUND").1 (by decide),
   (C6_notfound_evicts_session "sessions/abc" ∅ "500 internal").2 (by decide)⟩

/-- Claim C7, counterexample: the code keeps no pending-selection state and
the router itself never parses the inbound message as an index — selection
always goes through the resolver, whose `matchIndex` the router validates as
a 0-based index.  Concretely, with two candidates: the claimed behavior on
the reply "2" (a valid 1-based index) creates a session against the second
candidate, while the code's branch re-prompts on a resolver decision with
`matchIndex = 2` (the 1-based rendering of that reply) and instead accepts
`matchIndex = 0`, which the claimed 1-based parse would reject; a re-prompt
leaves the conversation's session mapping empty, identical to the plain
no-session state. -/
theorem C7_selection_counterexample :
    routePendingSelectionClaim [⟨"sources/repo-a"⟩, ⟨"sources/chat-app"⟩] "2"
      = .startSession ⟨"sources/chat-app"⟩ ∧
    routeNoSession [⟨"sources/repo-a"⟩, ⟨"sources/chat-app"⟩]
        ⟨some 2, none⟩ = .reprompt defaultSelectPrompt ∧
    routeNoSession [⟨"sources/repo-a"⟩, ⟨"sources/chat-app"⟩]
        ⟨some 0, none⟩ = .startSession ⟨"sources/repo-a"⟩ ∧
    noSessionStateAfter [⟨"sources/repo-a"⟩, ⟨"sources/chat-app"⟩]
        ⟨some 2, none⟩ "sessions/new" = none := by
  decide

/-- Claim C7 as amended: a conversation without an active session (there is
no stored pending-selection state) routes every inbound message through the
resolver against a freshly fetched non-empty source list; the router accepts
the resolver's `matchIndex` as a 0-based index — an in-range index creates a
session against that source, while a null or out-of-range index re-prompts
with the resolver's reply (or the fixed fallback) and leaves the
conversation in the no-session state. -/
theorem C7_selection_amended (sources : List Source) (d : Decision)
    (hne : sources ≠ []) :
    (∀ i : Int, d.matchIndex = some i → 0 ≤ i → i < sources.length →
      routeNoSession sources d = .startSession (sources.getD i.toNat ⟨""⟩)) ∧
    (∀ i : Int, d.matchIndex = some i → ¬ (0 ≤ i ∧ i < sources.length) →
      routeNoSession sources d = .reprompt (strOr d.reply defaultSelectPrompt) ∧
      ∀ sid, noSessionStateAfter sources d sid = none) ∧
    (d.matchIndex = none →
      routeNoSession sources d = .reprompt (strOr d.reply defaultSelectPrompt)) := by
  have hne' : sources.isEmpty = false := by
    cases sources with
    | nil => exact absurd rfl hne
    | cons s ss => rfl
  refine ⟨?_, ?_, ?_⟩
  · intro i hi h0 hlen
    simp [routeNoSession, hne', hi, h0, hlen]
  · intro i hi hrange
    constructor
    · simp [routeNoSession, hne', hi, hrange]
    · intro sid
      simp [noSessionStateAfter, routeNoSession, hne', hi, hrange]
  · intro hi
    simp [routeNoSession, hne', hi]

/-- Witness for the amended C7: index 0 accepted against the first source,
index 5 out of range re-prompts and stores nothing. -/
theorem C7_selection_witness :
    routeNoSession [⟨"sources/repo-a"⟩, ⟨"sources/chat-app"⟩] ⟨some 0, none⟩
      = .startSession (([⟨"sources/repo-a"⟩,
          ⟨"sources/chat-app"⟩] : List Source).getD (Int.toNat 0) ⟨""⟩) ∧
    routeNoSession [⟨"sources/repo-a"⟩, ⟨"sources/chat-app"⟩] ⟨some 5, none⟩
      = .reprompt (strOr none defaultSelectPrompt) :=
  ⟨(C7_selection_amended [⟨"sources/repo-a"⟩, ⟨"sources/chat-app"⟩]
      ⟨some 0, none⟩ (by decide)).1 0 rfl (by decide) (by decide),
   ((C7_selection_amended [⟨"sources/repo-a"⟩, ⟨"sources/chat-app"⟩]
      ⟨some 5, none⟩ (by decide)).2.1 5 rfl (by decide)).1⟩

/-- Recording ids into a union records them into the right operand. -/
theorem addIds_union :
    ∀ (acts : List Activity) (S T : Finset String),
      addIds (S ∪ T) acts = S ∪ addIds T acts := by
  intro acts
  induction acts with
  | nil => intro S T; rfl
  | cons a rest ih =>
    intro S T
    show addIds (insert a.id (S ∪ T)) rest = S ∪ addIds (insert a.id T) rest
    rw [← Finset.union_insert]
    exact ih S (insert a.id T)

/-- The back-fill pass over a union seed back-fills the right operand. -/
theorem backfillLoop_union (feed : Option String → Option Page) :
    ∀ (fuel : Nat) (tok : Option String) (S T : Finset String),
      backfillLoop feed fuel tok (S ∪ T) = S ∪ backfillLoop feed fuel tok T := by
  intro fuel
  induction fuel with
  | zero => intro tok S T; rfl
  | succ n ih =>
    intro tok S T
    unfold backfillLoop
    cases hf : feed tok with
    | none => rfl
    | some p =>
      dsimp only []
      cases hnext : p.nextPageToken with
      | none =>
        dsimp only []
        cases hact : p.activities with
        | none => rfl
        | some acts => exact addIds_union acts S T
      | some t =>
        dsimp only []
        by_cases ht : t = ""
        · rw [if_neg (by simp [ht]), if_neg (by simp [ht])]
          cases hact : p.activities with
          | none => rfl
          | some acts => exact addIds_union acts S T
        · rw [if_pos ht, if_pos ht]
          cases hact : p.activities with
          | none => exact ih (some t) S T
          | some acts =>
            dsimp only []
            rw [addIds_union acts S T]
            exact ih (some t) S (addIds T acts)

/-- Claim C8: re-running the initial full-pagination back-fill pass over the
unchanged feed, seeding it with the seen-set the first pass produced, yields
that same seen-set; and the back-fill phase of a monitor run emits nothing —
before the first polling tick the run's emission list is empty. -/
theorem C8_backfill_idempotent (feed : Option String → Option Page) (fuel : Nat) :
    backfillLoop feed fuel none (backfillLoop feed fuel none ∅)
      = backfillLoop feed fuel none ∅ ∧
    ∀ (tr : String → String) (startTime : Int),
      monitorSession tr feed fuel none startTime []
        = ([], some ⟨backfillLoop feed fuel none ∅, true, startTime⟩) := by
  constructor
  · calc backfillLoop feed fuel none (backfillLoop feed fuel none ∅)
        = backfillLoop feed fuel none (backfillLoop feed fuel none ∅ ∪ ∅) := by
          rw [Finset.union_empty]
      _ = backfillLoop feed fuel none ∅ ∪ backfillLoop feed fuel none ∅ :=
          backfillLoop_union feed fuel none _ ∅
      _ = backfillLoop feed fuel none ∅ := Finset.union_self _
  · intro tr startTime
    rfl

/-- Notification counts add across concatenation. -/
theorem notifCount_append (x : String) (l₁ l₂ : List Emission) :
    notifCount x (l₁ ++ l₂) = notifCount x l₁ + notifCount x l₂ :=
  List.countP_append _ _ _

/-- One activity's send list is empty or a single notification for its id. -/
theorem notifySends_shape (tr : String → String) (a : Activity)
    (r : Notification) :
    notifySends tr a r = [] ∨
      ∃ c f b, notifySends tr a r = [.notify a.id c f b] := by
  unfold notifySends
  dsimp only []
  split <;> split
  all_goals first
    | exact Or.inl rfl
    | exact Or.inr ⟨_, _, _, rfl⟩

/-- One activity's send list holds at most one notification for any id. -/
theorem notifySends_count_le (tr : String → String) (a : Activity)
    (r : Notification) (x : String) :
    notifCount x (notifySends tr a r) ≤ 1 := by
  rcases notifySends_shape tr a r with h | ⟨c, f, b, h⟩ <;> rw [h]
  · simp [notifCount]
  · simp only [notifCount, List.countP_cons, List.countP_nil]
    split <;> simp

/-- One activity's send list mentions no id other than the activity's own. -/
theorem notifySends_count_ne (tr : String → String) (a : Activity)
    (r : Notification) (x : String) (h : a.id ≠ x) :
    notifCount x (notifySends tr a r) = 0 := by
  rcases notifySends_shape tr a r with hs | ⟨c, f, b, hs⟩ <;> rw [hs]
  · simp [notifCount]
  · have hb : (a.id == x) = false := beq_eq_false_iff_ne.mpr h
    simp [notifCount, List.countP_cons, List.countP_nil, isNotifyOf, hb]

/-- Processing a page yields no notification for an id absent from the page. -/
theorem processActivities_count_zero (tr : String → String) (x : String) :
    ∀ (acts : List Activity) (st : MonitorState),
      (∀ a ∈ acts, a.id ≠ x) →
      notifCount x (emsOf (processActivities tr st acts)) = 0 := by
  intro acts
  induction acts with
  | nil => intro st _; simp [processActivities, emsOf, notifCount]
  | cons a rest ih =>
    intro st hids
    have hrest : ∀ a ∈ rest, a.id ≠ x :=
      fun b hb => hids b (List.mem_cons_of_mem a hb)
    unfold processActivities
    dsimp only []
    split
    · exact ih _ hrest
    · split
      · exact ih _ hrest
      · rename_i r hfmt
        split
        · simp [emsOf, notifCount]
        · rw [emsOf_seqResult, notifCount_append,
            notifySends_count_ne tr a r x (hids a (List.mem_cons_self a rest)),
            ih _ hrest]

/-- A combined result is `cont` only when the rest's result was, with the
same final state. -/
theorem seqResult_cont (ems e2 : List Emission) (r : TickResult)
    (st' : MonitorState) (h : seqResult ems r = .cont st' e2) :
    ∃ e3, r = .cont st' e3 := by
  cases r with
  | cont st3 e3 =>
    have h' : st3 = st' := by
      simp only [seqResult, TickResult.cont.injEq] at h
      exact h.1
    exact ⟨e3, by rw [h']⟩
  | terminated e3 => exact absurd h (by simp [seqResult])

/-- When processing a page continues, the seen-set only grew, and every id
of the page belongs to the final seen-set. -/
theorem processActivities_cont_seen (tr : String → String) :
    ∀ (acts : List Activity) (st : MonitorState) (st' : MonitorState)
      (ems : List Emission),
      processActivities tr st acts = .cont st' ems →
      st.seenIds ⊆ st'.seenIds ∧ ∀ a ∈ acts, a.id ∈ st'.seenIds := by
  intro acts
  induction acts with
  | nil =>
    intro st st' ems h
    simp only [processActivities, TickResult.cont.injEq] at h
    rw [← h.1]
    exact ⟨Finset.Subset.refl _, by simp⟩
  | cons a rest ih =>
    intro st st' ems h
    unfold processActivities at h
    dsimp only [] at h
    split at h
    · obtain ⟨hsub, hall⟩ := ih _ _ _ h
      refine ⟨Finset.Subset.trans (Finset.subset_insert a.id st.seenIds) hsub, ?_⟩
      intro b hb
      rcases List.mem_cons.mp hb with hba | hbr
      · rw [hba]; exact hsub (Finset.mem_insert_self _ _)
      · exact hall b hbr
    · split at h
      · obtain ⟨hsub, hall⟩ := ih _ _ _ h
        refine ⟨Finset.Subset.trans (Finset.subset_insert a.id st.seenIds) hsub, ?_⟩
        intro b hb
        rcases List.mem_cons.mp hb with hba | hbr
        · rw [hba]; exact hsub (Finset.mem_insert_self _ _)
        · exact hall b hbr
      · rename_i r hfmt
        split at h
        · exact absurd h (by simp)
        · obtain ⟨e3, hrec⟩ := seqResult_cont _ _ _ _ h
          obtain ⟨hsub, hall⟩ := ih _ _ _ hrec
          refine ⟨Finset.Subset.trans (Finset.subset_insert a.id st.seenIds) hsub, ?_⟩
          intro b hb
          rcases List.mem_cons.mp hb with hba | hbr
          · rw [hba]; exact hsub (Finset.mem_insert_self _ _)
          · exact hall b hbr

/-- A notification for `x` can only come from a page activity with id `x`. -/
theorem processActivities_count_pos (tr : String → String) (x : String)
    (acts : List Activity) (st : MonitorState)
    (h : 1 ≤ notifCount x (emsOf (processActivities tr st acts))) :
    ∃ a ∈ acts, a.id = x := by
  by_contra hc
  push_neg at hc
  rw [processActivities_count_zero tr x acts st hc] at h
  omega

/-- Over a page with pairwise-distinct ids, processing notifies any given id
at most once. -/
theorem processActivities_count_le (tr : String → String) (x : String) :
    ∀ (acts : List Activity) (st : MonitorState),
      (acts.map Activity.id).Nodup →
      notifCount x (emsOf (processActivities tr st acts)) ≤ 1 := by
  intro acts
  induction acts with
  | nil => intro st _; simp [processActivities, emsOf, notifCount]
  | cons a rest ih =>
    intro st hnd
    rw [List.map_cons, List.nodup_cons] at hnd
    unfold processActivities
    dsimp only []
    split
    · exact ih _ hnd.2
    · split
      · exact ih _ hnd.2
      · rename_i r hfmt
        split
        · simp [emsOf, notifCount]
        · rw [emsOf_seqResult, notifCount_append]
          by_cases hax : a.id = x
          · have hrest0 : ∀ b ∈ rest, b.id ≠ x := by
              intro b hb hbx
              exact hnd.1 (by rw [hax, ← hbx]; exact List.mem_map_of_mem Activity.id hb)
            rw [processActivities_count_zero tr x rest _ hrest0, Nat.add_zero]
            exact notifySends_count_le tr a r x
          · rw [notifySends_count_ne tr a r x hax, Nat.zero_add]
            exact ih _ hnd.2

/-- The two possible results of the idle-filler check. -/
theorem mutterStep_cases (st : MonitorState) (now : Int) (ph : Nat) :
    mutterStep st now ph
        = .cont { st with lastMutterTime := now } [.mutter (pickPhrase ph)] ∨
      mutterStep st now ph = .cont st [] := by
  unfold mutterStep
  by_cases hc : st.isWaitingForResponse = true ∧ now - st.lastMutterTime > 30000
  · exact Or.inl (if_pos hc)
  · exact Or.inr (if_neg hc)

/-- The idle-filler check emits no notification. -/
theorem mutterStep_count_zero (st : MonitorState) (now : Int) (ph : Nat)
    (x : String) :
    notifCount x (emsOf (mutterStep st now ph)) = 0 := by
  rcases mutterStep_cases st now ph with h | h <;> rw [h] <;>
    simp [emsOf, notifCount, List.countP_cons, List.countP_nil, isNotifyOf]

/-- Unfolding of a polling iteration on a fetched page. -/
theorem monitorTick_some_eq (tr : String → String) (st : MonitorState)
    (now : Int) (acts : List Activity) (ph : Nat) :
    monitorTick tr st now (some acts) ph =
      if acts.filter (fun a => decide (a.id ∉ st.seenIds)) = [] then
        mutterStep st now ph
      else
        processActivities tr { st with lastMutterTime := now }
          (acts.filter (fun a => decide (a.id ∉ st.seenIds))) := rfl

/-- A continuing polling iteration only grows the seen-set. -/
theorem monitorTick_seen_mono (tr : String → String) (st : MonitorState)
    (now : Int) (poll : Option (List Activity)) (ph : Nat)
    (st' : MonitorState) (ems : List Emission)
    (h : monitorTick tr st now poll ph = .cont st' ems) :
    st.seenIds ⊆ st'.seenIds := by
  have hmut : mutterStep st now ph = .cont st' ems → st.seenIds ⊆ st'.seenIds := by
    intro hm
    rcases mutterStep_cases st now ph with hc | hc <;> rw [hc] at hm <;>
      simp only [TickResult.cont.injEq] at hm <;> rw [← hm.1]
  cases poll with
  | none => exact hmut h
  | some acts =>
    rw [monitorTick_some_eq] at h
    by_cases hemp : acts.filter (fun a => decide (a.id ∉ st.seenIds)) = []
    · rw [if_pos hemp] at h
      exact hmut h
    · rw [if_neg hemp] at h
      exact (processActivities_cont_seen tr _ _ _ _ h).1

/-- A polling iteration emits no notification for an already-seen id. -/
theorem monitorTick_count_zero (tr : String → String) (st : MonitorState)
    (now : Int) (poll : Option (List Activity)) (ph : Nat) (x : String)
    (hx : x ∈ st.seenIds) :
    notifCount x (emsOf (monitorTick tr st now poll ph)) = 0 := by
  cases poll with
  | none => exact mutterStep_count_zero st now ph x
  | some acts =>
    rw [monitorTick_some_eq]
    by_cases hemp : acts.filter (fun a => decide (a.id ∉ st.seenIds)) = []
    · rw [if_pos hemp]
      exact mutterStep_count_zero st now ph x
    · rw [if_neg hemp]
      refine processActivities_count_zero tr x _ _ ?_
      intro b hb hbx
      have hmem := List.of_mem_filter hb
      rw [decide_eq_true_eq] at hmem
      exact hmem (hbx ▸ hx)

/-- Over pages with pairwise-distinct ids, one polling iteration notifies
any given id at most once. -/
theorem monitorTick_count_le (tr : String → String) (st : MonitorState)
    (now : Int) (poll : Option (List Activity)) (ph : Nat) (x : String)
    (hN : ∀ acts, poll = some acts → (acts.map Activity.id).Nodup) :
    notifCount x (emsOf (monitorTick tr st now poll ph)) ≤ 1 := by
  cases poll with
  | none => rw [show monitorTick tr st now none ph = mutterStep st now ph from rfl,
      mutterStep_count_zero st now ph x]; omega
  | some acts =>
    rw [monitorTick_some_eq]
    by_cases hemp : acts.filter (fun a => decide (a.id ∉ st.seenIds)) = []
    · rw [if_pos hemp, mutterStep_count_zero st now ph x]; omega
    · rw [if_neg hemp]
      refine processActivities_count_le tr x _ _ ?_
      have hnd := hN acts rfl
      exact ((List.filter_sublist acts).map Activity.id).nodup hnd

/-- A continuing polling iteration that did notify id `x` has `x` in its
final seen-set. -/
theorem monitorTick_notified_seen (tr : String → String) (st : MonitorState)
    (now : Int) (poll : Option (List Activity)) (ph : Nat)
    (st' : MonitorState) (ems : List Emission) (x : String)
    (h : monitorTick tr st now poll ph = .cont st' ems)
    (hpos : 1 ≤ notifCount x ems) :
    x ∈ st'.seenIds := by
  have hmut : mutterStep st now ph = .cont st' ems → False := by
    intro hm
    have h0 := mutterStep_count_zero st now ph x
    rw [hm] at h0
    simp only [emsOf] at h0
    omega
  cases poll with
  | none => exact absurd h hmut
  | some acts =>
    rw [monitorTick_some_eq] at h
    by_cases hemp : acts.filter (fun a => decide (a.id ∉ st.seenIds)) = []
    · rw [if_pos hemp] at h
      exact absurd h hmut
    · rw [if_neg hemp] at h
      have hpos' : 1 ≤ notifCount x (emsOf (processActivities tr
          { st with lastMutterTime := now }
          (acts.filter (fun a => decide (a.id ∉ st.seenIds))))) := by
        rw [h]
        simpa [emsOf] using hpos
      obtain ⟨a, ha, hax⟩ := processActivities_count_pos tr x _ _ hpos'
      have := (processActivities_cont_seen tr _ _ _ _ h).2 a ha
      exact hax ▸ this

/-- Unfolding of the polling loop on a non-empty trace. -/
theorem runMonitor_cons (tr : String → String) (startT : Int)
    (st : MonitorState) (t : Tick) (ts : List Tick) :
    runMonitor tr startT st (t :: ts) =
      if t.now - startT < maxTime then
        match monitorTick tr st t.now t.poll t.phrase with
        | .cont st' ems =>
          (ems ++ (runMonitor tr startT st' ts).1, (runMonitor tr startT st' ts).2)
        | .terminated ems => (ems, none)
      else ([], none) := rfl

/-- Once an id is in the seen-set, the rest of the run never notifies it. -/
theorem runMonitor_count_zero (tr : String → String) (startT : Int) (x : String) :
    ∀ (ticks : List Tick) (st : MonitorState), x ∈ st.seenIds →
      notifCount x (runMonitor tr startT st ticks).1 = 0 := by
  intro ticks
  induction ticks with
  | nil => intro st _; simp [runMonitor, notifCount]
  | cons t ts ih =>
    intro st hx
    rw [runMonitor_cons]
    by_cases hg : t.now - startT < maxTime
    · rw [if_pos hg]
      cases hT : monitorTick tr st t.now t.poll t.phrase with
      | cont st' ems =>
        dsimp only []
        rw [notifCount_append]
        have h1 : notifCount x ems = 0 := by
          have h0 := monitorTick_count_zero tr st t.now t.poll t.phrase x hx
          rw [hT] at h0
          simpa [emsOf] using h0
        have h2 := ih st'
          (monitorTick_seen_mono tr st t.now t.poll t.phrase st' ems hT hx)
        rw [h1, h2]
      | terminated ems =>
        dsimp only []
        have h0 := monitorTick_count_zero tr st t.now t.poll t.phrase x hx
        rw [hT] at h0
        simpa [emsOf] using h0
    · rw [if_neg hg]
      simp [notifCount]

/-- Claim C2: over any monitor run whose polled pages each carry
pairwise-distinct activity ids, any given activity id is formatted and
emitted at most once across the run — an id, once in the seen-set, is
filtered out of every later page, however often it reappears. -/
theorem C2_dedup_at_most_once (tr : String → String) (startTime : Int) :
    ∀ (ticks : List Tick) (st : MonitorState),
      (∀ t ∈ ticks, ∀ acts, t.poll = some acts → (acts.map Activity.id).Nodup) →
      ∀ x, notifCount x (runMonitor tr startTime st ticks).1 ≤ 1 := by
  intro ticks
  induction ticks with
  | nil => intro st _ x; simp [runMonitor, notifCount]
  | cons t ts ih =>
    intro st hN x
    have hNt : ∀ acts, t.poll = some acts → (acts.map Activity.id).Nodup :=
      hN t (List.mem_cons_self t ts)
    have hNts : ∀ t' ∈ ts, ∀ acts, t'.poll = some acts →
        (acts.map Activity.id).Nodup :=
      fun t' ht' => hN t' (List.mem_cons_of_mem t ht')
    rw [runMonitor_cons]
    by_cases hg : t.now - startTime < maxTime
    · rw [if_pos hg]
      cases hT : monitorTick tr st t.now t.poll t.phrase with
      | cont st' ems =>
        dsimp only []
        rw [notifCount_append]
        have hc1 : notifCount x ems ≤ 1 := by
          have hle := monitorTick_count_le tr st t.now t.poll t.phrase x hNt
          rw [hT] at hle
          simpa [emsOf] using hle
        by_cases hpos : 1 ≤ notifCount x ems
        · have hx' : x ∈ st'.seenIds :=
            monitorTick_notified_seen tr st t.now t.poll t.phrase st' ems x hT hpos
          rw [runMonitor_count_zero tr startTime x ts st' hx']
          omega
        · have h0 : notifCount x ems = 0 := by omega
          rw [h0, Nat.zero_add]
          exact ih st' hNts x
      | terminated ems =>
        dsimp only []
        have hle := monitorTick_count_le tr st t.now t.poll t.phrase x hNt
        rw [hT] at hle
        simpa [emsOf] using hle
    · rw [if_neg hg]
      simp [notifCount]

/-- Witness for C2: a one-tick run meeting the completed activity notifies
its id at most once. -/
theorem C2_dedup_witness :
    notifCount "done-1"
      (runMonitor id 0 ⟨∅, true, 0⟩ [⟨1000, some [cCompleted], 0⟩]).1 ≤ 1 :=
  C2_dedup_at_most_once id 0 [⟨1000, some [cCompleted], 0⟩] ⟨∅, true, 0⟩
    (by
      intro t ht acts hacts
      rw [List.mem_singleton] at ht
      rw [ht] at hacts
      cases hacts
      decide)
    "done-1"
